import Mathlib

/-
Shallow embedding of the Marathwada drought comparison dashboard (src/app.py).

The dashboard loads a table of yearly drought-category percentages, lets the
user pick two years, and renders for each side a map image (fetched over the
network with a fixed placeholder fallback), a pie chart of the six category
values, and a 2x3 grid of metric cards.

Modelling choices:
  - a pandas row becomes a `Record`; a dataframe slice becomes `List Record`;
    `.iloc[0]` becomes `List.head?` (an `IndexError` is `Option.none`);
  - category column access `row[cat]` becomes `categoryValue`;
  - the network (`urllib.request.urlopen(url).read()`) becomes an explicit
    oracle `fetch : String → Option (List Nat)`; `none` stands for any raised
    exception, `some bytes` for a successful read;
  - `base64.b64encode` is implemented as `b64encode` over byte values;
  - `raise dash.exceptions.PreventUpdate` and the `IndexError` a missing year
    would cause become the two `Except` error signals of `update_dashboard`.
-/

/-- The six drought categories of the dashboard (the string keys used by
`colors`, `icons`, `categories` and `categories_grid` in src/app.py). -/
inductive Category where
  | Extreme_Drought
  | Severe_Drought
  | Moderate_Drought
  | Extremely_Wet
  | Moderately_Wet
  | Near_Normal
  deriving DecidableEq, Repr

/-- The string each `Category` value stands for in src/app.py. -/
def catName : Category → String
  | .Extreme_Drought => "Extreme_Drought"
  | .Severe_Drought => "Severe_Drought"
  | .Moderate_Drought => "Moderate_Drought"
  | .Extremely_Wet => "Extremely_Wet"
  | .Moderately_Wet => "Moderately_Wet"
  | .Near_Normal => "Near_Normal"

/-- One row of `main_data.csv`: the year key, the map-image URL (column
`Map Images Left`), and the six category values. -/
structure Record where
  year : Int
  mapImagesLeft : String
  extreme_drought : Rat
  severe_drought : Rat
  moderate_drought : Rat
  extremely_wet : Rat
  moderately_wet : Rat
  near_normal : Rat
  deriving DecidableEq, Repr

/-- Column access `row[cat]` for the six category columns. -/
def categoryValue (r : Record) : Category → Rat
  | .Extreme_Drought => r.extreme_drought
  | .Severe_Drought => r.severe_drought
  | .Moderate_Drought => r.moderate_drought
  | .Extremely_Wet => r.extremely_wet
  | .Moderately_Wet => r.moderately_wet
  | .Near_Normal => r.near_normal

/-- The `colors` dict of src/app.py (category to hex color). -/
def colors : Category → String
  | .Near_Normal => "#90EE90"
  | .Moderately_Wet => "#4169E1"
  | .Extremely_Wet => "#0000FF"
  | .Moderate_Drought => "#FFA500"
  | .Severe_Drought => "#FF4500"
  | .Extreme_Drought => "#8B0000"

/-- `years = sorted(df['year'].unique())`: the distinct year keys of the
loaded table, sorted ascending. -/
def yearsOf (df : List Record) : List Int :=
  ((df.map Record.year).dedup).mergeSort (fun a b => decide (a ≤ b))

/-- `df[df['year'] == y]`: the rows of the table whose year equals `y`. -/
def rowsForYear (df : List Record) (y : Int) : List Record :=
  df.filter (fun r => r.year == y)

/-- `df[df['year'] == y].iloc[0]`: the first row with year `y`;
`none` models the `IndexError` raised when no row matches (the spec's
RecordStore.get with its NotFound failure). -/
def getRecord (df : List Record) (y : Int) : Option Record :=
  (rowsForYear df y).head?

/-- The standard base64 alphabet used by `base64.b64encode`. -/
def b64chars : List Char :=
  "ABCDEFGHIJKLMNOPQRSTUVWXYZabcdefghijklmnopqrstuvwxyz0123456789+/".data

/-- The base64 digit for a 6-bit value. -/
def b64char (i : Nat) : Char := b64chars.getD i 'A'

/-- Base64-encode a byte list, three bytes to four characters, with `=`
padding, as `base64.b64encode` does. -/
def b64groups : List Nat → List Char
  | [] => []
  | [a] => [b64char (a / 4), b64char (a % 4 * 16), '=', '=']
  | [a, b] => [b64char (a / 4), b64char (a % 4 * 16 + b / 16), b64char (b % 16 * 4), '=']
  | a :: b :: c :: rest =>
      b64char (a / 4) :: b64char (a % 4 * 16 + b / 16) ::
        b64char (b % 16 * 4 + c / 64) :: b64char (c % 64) :: b64groups rest

/-- `base64.b64encode(bytes).decode()`. -/
def b64encode (img_data : List Nat) : String := String.mk (b64groups img_data)

/-- The fixed 1x1 PNG placeholder returned by `get_image_base64` on failure. -/
def fallbackPayload : String :=
  "data:image/png;base64,iVBORw0KGgoAAAANSUhEUgAAAAEAAAABCAYAAAAfFcSJAAAADUlEQVR42mNkYPhfDwAChwGA60e6kgAAAABJRU5ErkJggg=="

/-- `get_image_base64(url)`: fetch the URL and return the bytes base64-encoded
under the `data:image/jpeg;base64,` prefix; on any failure (the `except`
branch) return the fixed placeholder instead. The network is the explicit
oracle `fetch`; `fetch url = none` models any raised exception. -/
def get_image_base64 (fetch : String → Option (List Nat)) (url : String) : String :=
  match fetch url with
  | some img_data => "data:image/jpeg;base64," ++ b64encode img_data
  | none => fallbackPayload

/-- The fixed category order of `create_pie_chart`. -/
def pieCategories : List Category :=
  [.Extreme_Drought, .Severe_Drought, .Moderate_Drought,
   .Extremely_Wet, .Moderately_Wet, .Near_Normal]

/-- The chart-ready structure `create_pie_chart` builds (the `go.Pie` data
plus the title; purely presentational layout options are omitted). -/
structure PieChart where
  labels : List Category
  values : List Rat
  marker_colors : List String
  title : String
  deriving DecidableEq, Repr

/-- `create_pie_chart(year_data, year)`: read the six category values of the
slice's first row in the fixed order, with the positional colors; `none`
models the `IndexError` on an empty slice. -/
def create_pie_chart (year_data : List Record) (year : Int) : Option PieChart :=
  (year_data.head?).map fun row =>
    { labels := pieCategories
      values := pieCategories.map (categoryValue row)
      marker_colors := pieCategories.map colors
      title := toString year ++ " Distribution" }

/-- The `icons` dict of `create_metric_card`. -/
def icons : Category → String
  | .Extreme_Drought => "☀️"
  | .Extremely_Wet => "💧"
  | .Moderate_Drought => "🌤️"
  | .Moderately_Wet => "🌧️"
  | .Near_Normal => "🌿"
  | .Severe_Drought => "🔥"

/-- One metric card as built by `create_metric_card`: icon glyph, display
label, raw numeric value, background color and text color. -/
structure MetricCard where
  icon : String
  label : String
  value : Rat
  background : String
  text_color : String
  deriving DecidableEq, Repr

/-- `category.replace('_', ' ')`: the pattern is a single character, so the
replacement is a character-by-character map. -/
def underscoreToSpace (s : String) : String :=
  String.mk (s.data.map fun ch => if ch = '_' then ' ' else ch)

/-- `create_metric_card(category, value, side)`: the `side` argument is
accepted but unused, as in the source. -/
def create_metric_card (category : Category) (value : Rat) (side : String) : MetricCard :=
  { icon := icons category
    label := underscoreToSpace (catName category)
    value := value
    background := colors category
    text_color :=
      if category ∈ [Category.Extreme_Drought, Category.Severe_Drought, Category.Extremely_Wet]
      then "white" else "black" }

/-- The `categories_grid` of `update_dashboard`: two rows of three. -/
def categories_grid : List (List Category) :=
  [[.Extreme_Drought, .Severe_Drought, .Moderate_Drought],
   [.Extremely_Wet, .Moderately_Wet, .Near_Normal]]

/-- The metric grid built inline in `update_dashboard`: one card per grid
cell, with that category's value from the slice's first row; `none` models
the `IndexError` on an empty slice. -/
def build_metrics (year_data : List Record) (side : String) :
    Option (List (List MetricCard)) :=
  (year_data.head?).map fun row =>
    categories_grid.map fun gridRow =>
      gridRow.map fun cat => create_metric_card cat (categoryValue row cat) side

/-- The two failure signals of `update_dashboard`: `preventUpdate` is
`dash.exceptions.PreventUpdate`; `notFound` is the `IndexError` a year with
no matching row would cause at `.iloc[0]` (the spec's NotFound). -/
inductive DashSignal where
  | preventUpdate
  | notFound
  deriving DecidableEq, Repr

/-- The six outputs of `update_dashboard`. -/
structure DashOutputs where
  map_left_src : String
  map_right_src : String
  pie_left : PieChart
  pie_right : PieChart
  metrics_left : List (List MetricCard)
  metrics_right : List (List MetricCard)
  deriving DecidableEq, Repr

/-- Python truthiness of an optional year: `not year` is true exactly when
the value is absent or equal to 0. -/
def truthy : Option Int → Bool
  | none => false
  | some n => n != 0

/-- The body of `update_dashboard` after the precondition check: resolve both
map images, build both pies and both metric grids from the two year slices.
The `Option` chain models the `.iloc[0]` accesses that would raise on an
empty slice. -/
def buildOutputs (fetch : String → Option (List Nat))
    (left_data right_data : List Record) (yl yr : Int) : Option DashOutputs := do
  let l ← left_data.head?
  let r ← right_data.head?
  let pie_left ← create_pie_chart left_data yl
  let pie_right ← create_pie_chart right_data yr
  let metrics_left ← build_metrics left_data "Left"
  let metrics_right ← build_metrics right_data "Right"
  some { map_left_src := get_image_base64 fetch l.mapImagesLeft
         map_right_src := get_image_base64 fetch r.mapImagesLeft
         pie_left := pie_left
         pie_right := pie_right
         metrics_left := metrics_left
         metrics_right := metrics_right }

/-- `update_dashboard(year_left, year_right)`: signal `PreventUpdate` when
`not year_left or not year_right` (Python truthiness), otherwise slice the
table for both years and return the six outputs, or `notFound` if a year has
no row. -/
def update_dashboard (fetch : String → Option (List Nat)) (df : List Record)
    (year_left year_right : Option Int) : Except DashSignal DashOutputs :=
  if !(truthy year_left) || !(truthy year_right) then
    .error .preventUpdate
  else
    match year_left, year_right with
    | some yl, some yr =>
      match buildOutputs fetch (rowsForYear df yl) (rowsForYear df yr) yl yr with
      | some outs => .ok outs
      | none => .error .notFound
    | _, _ => .error .preventUpdate

/- Concrete sample data for witness instantiations. -/

/-- A sample 1990 record. -/
def rec1990 : Record :=
  { year := 1990, mapImagesLeft := "https://example.com/1990.jpg"
    extreme_drought := 5, severe_drought := 10, moderate_drought := 15
    extremely_wet := 20, moderately_wet := 25, near_normal := 25 }

/-- A sample 1991 record. -/
def rec1991 : Record :=
  { year := 1991, mapImagesLeft := "https://example.com/1991.jpg"
    extreme_drought := 1, severe_drought := 2, moderate_drought := 3
    extremely_wet := 4, moderately_wet := 5, near_normal := 85 }

/-- A record whose year key is 0. -/
def zeroRecord : Record :=
  { year := 0, mapImagesLeft := "https://example.com/0.jpg"
    extreme_drought := 1, severe_drought := 2, moderate_drought := 3
    extremely_wet := 4, moderately_wet := 5, near_normal := 6 }

/-- A sample two-year table. -/
def dfSample : List Record := [rec1990, rec1991]

/-- A fetch oracle on which every URL fails. -/
def fetchFail : String → Option (List Nat) := fun _ => none

/-- A fetch oracle on which every URL yields the bytes of "Man". -/
def fetchMan : String → Option (List Nat) := fun _ => some [77, 97, 110]

/- Helper lemmas about the year index. -/

/-- Membership in the sorted year list is membership among the table's years. -/
theorem mem_yearsOf {df : List Record} {y : Int} :
    y ∈ yearsOf df ↔ y ∈ df.map Record.year := by
  unfold yearsOf
  rw [(List.mergeSort_perm _ _).mem_iff, List.mem_dedup]

/-- The year list has no duplicates. -/
theorem nodup_yearsOf (df : List Record) : (yearsOf df).Nodup :=
  ((List.mergeSort_perm _ _).nodup_iff).mpr (List.nodup_dedup _)

/-- The year list is sorted by `≤`. -/
theorem sorted_le_yearsOf (df : List Record) : (yearsOf df).Sorted (· ≤ ·) := by
  have h := @List.sorted_mergeSort Int (fun a b => decide (a ≤ b))
    (fun a b c hab hbc => by
      simp only [decide_eq_true_eq] at hab hbc ⊢
      omega)
    (fun a b => by
      simp only [Bool.or_eq_true, decide_eq_true_eq]
      omega)
    ((df.map Record.year).dedup)
  exact h.imp (fun hab => by simpa using hab)

/-- The year list is strictly sorted. -/
theorem sorted_lt_yearsOf (df : List Record) : (yearsOf df).Sorted (· < ·) :=
  (sorted_le_yearsOf df).lt_of_le (nodup_yearsOf df)

/-- In a `≤`-sorted integer list the head is a lower bound. -/
theorem sorted_head?_le {l : List Int} (hs : l.Sorted (· ≤ ·)) {hd : Int}
    (h : l.head? = some hd) : ∀ y ∈ l, hd ≤ y := by
  cases l with
  | nil => simp at h
  | cons a t =>
    intro y hy
    injection h with h
    subst h
    rcases List.mem_cons.mp hy with rfl | hy2
    · exact le_refl _
    · exact List.rel_of_sorted_cons hs y hy2

/-- In a `≤`-sorted integer list the last element is an upper bound. -/
theorem sorted_le_getLast? {l : List Int} (hs : l.Sorted (· ≤ ·)) {lst : Int}
    (h : l.getLast? = some lst) : ∀ y ∈ l, y ≤ lst := by
  induction l with
  | nil => simp at h
  | cons a t ih =>
    cases t with
    | nil =>
      intro y hy
      simp only [List.getLast?_singleton, Option.some.injEq] at h
      simp only [List.mem_singleton] at hy
      subst h; subst hy
      exact le_refl _
    | cons b t2 =>
      rw [List.getLast?_cons_cons] at h
      intro y hy
      rcases List.mem_cons.mp hy with rfl | hy2
      · have hmem : lst ∈ b :: t2 := List.mem_of_mem_getLast? (by simp [h])
        exact List.rel_of_sorted_cons hs lst hmem
      · exact ih hs.tail h y hy2

/-- A year that occurs in the table has a first matching row. -/
theorem rowsForYear_head?_isSome {df : List Record} {y : Int}
    (h : y ∈ df.map Record.year) : ∃ l, (rowsForYear df y).head? = some l := by
  rcases List.mem_map.mp h with ⟨r, hr, hry⟩
  have hmem : r ∈ rowsForYear df y := List.mem_filter.mpr ⟨hr, by simp [hry]⟩
  cases hrw : rowsForYear df y with
  | nil => rw [hrw] at hmem; simp at hmem
  | cons a t => exact ⟨a, rfl⟩

/-- The head of a filtered list is the first element satisfying the test. -/
theorem head?_filter_eq_find? (p : Record → Bool) (l : List Record) :
    (l.filter p).head? = l.find? p := by
  induction l with
  | nil => rfl
  | cons a t ih =>
    by_cases h : p a
    · simp [List.filter_cons, List.find?_cons_of_pos, h]
    · simp [List.filter_cons, List.find?_cons_of_neg, h, ih]

/-- When both year slices have a first row, the output build succeeds. -/
theorem buildOutputs_isSome (fetch : String → Option (List Nat))
    {left_data right_data : List Record} {l r : Record} (yl yr : Int)
    (hl : left_data.head? = some l) (hr : right_data.head? = some r) :
    (buildOutputs fetch left_data right_data yl yr).isSome := by
  simp [buildOutputs, create_pie_chart, build_metrics, hl, hr]

/-- The sample table's year index is concretely `[1990, 1991]`. -/
theorem yearsOf_dfSample : yearsOf dfSample = [1990, 1991] := by
  unfold yearsOf
  have h1 : (dfSample.map Record.year).dedup = [1990, 1991] := by decide
  rw [h1]
  exact List.mergeSort_of_sorted (by decide)

/- Claim theorems. -/

/-- C1: `get_image_base64` never fails its caller: whenever the fetch oracle
fails (any exception) it returns the fixed 1x1 PNG placeholder payload, and
whenever the fetch succeeds it returns the fetched bytes encoded under the
jpeg data-URI prefix. -/
theorem c1_image_resolver_total (fetch : String → Option (List Nat)) (url : String) :
    (fetch url = none → get_image_base64 fetch url = fallbackPayload) ∧
    (∀ img_data, fetch url = some img_data →
      get_image_base64 fetch url = "data:image/jpeg;base64," ++ b64encode img_data) := by
  constructor
  · intro h
    simp [get_image_base64, h]
  · intro img_data h
    simp [get_image_base64, h]

/-- C1 witness: a concrete failing fetch and a concrete succeeding fetch. -/
theorem c1_image_resolver_total_witness :
    get_image_base64 fetchFail "https://example.com/a.jpg" = fallbackPayload ∧
    get_image_base64 fetchMan "https://example.com/a.jpg" =
      "data:image/jpeg;base64," ++ b64encode [77, 97, 110] :=
  ⟨(c1_image_resolver_total fetchFail "https://example.com/a.jpg").1 rfl,
   (c1_image_resolver_total fetchMan "https://example.com/a.jpg").2 [77, 97, 110] rfl⟩

/-- C3: for every record at the head of the year slice, the pie chart has
labels in exactly the fixed six-category order, values read verbatim from the
record's six category fields in the same order, and colors positionally from
the fixed category-to-color mapping, regardless of record content. -/
theorem c3_pie_fixed_order (year_data : List Record) (year : Int) (row : Record)
    (h : year_data.head? = some row) :
    create_pie_chart year_data year = some
      { labels := [.Extreme_Drought, .Severe_Drought, .Moderate_Drought,
                   .Extremely_Wet, .Moderately_Wet, .Near_Normal]
        values := [row.extreme_drought, row.severe_drought, row.moderate_drought,
                   row.extremely_wet, row.moderately_wet, row.near_normal]
        marker_colors := ["#8B0000", "#FF4500", "#FFA500", "#0000FF", "#4169E1", "#90EE90"]
        title := toString year ++ " Distribution" } := by
  simp [create_pie_chart, h, pieCategories, categoryValue, colors]

/-- C3 witness: the pie chart of the sample 1990 record. -/
theorem c3_pie_fixed_order_witness :
    create_pie_chart dfSample 1990 = some
      { labels := [.Extreme_Drought, .Severe_Drought, .Moderate_Drought,
                   .Extremely_Wet, .Moderately_Wet, .Near_Normal]
        values := [rec1990.extreme_drought, rec1990.severe_drought, rec1990.moderate_drought,
                   rec1990.extremely_wet, rec1990.moderately_wet, rec1990.near_normal]
        marker_colors := ["#8B0000", "#FF4500", "#FFA500", "#0000FF", "#4169E1", "#90EE90"]
        title := toString (1990 : Int) ++ " Distribution" } :=
  c3_pie_fixed_order dfSample 1990 rec1990 rfl

/-- C4: the year lookup `df[df['year'] == y].iloc[0]` fails exactly when no
loaded record has year `y`; otherwise it returns the first matching row, and
any returned row's year field equals `y`. -/
theorem c4_get_record (df : List Record) (y : Int) :
    (getRecord df y = none ↔ ∀ r ∈ df, r.year ≠ y) ∧
    (∀ r, getRecord df y = some r → r.year = y) ∧
    getRecord df y = df.find? (fun r => r.year == y) := by
  have hfind : getRecord df y = df.find? (fun r => r.year == y) :=
    head?_filter_eq_find? _ df
  refine ⟨?_, ?_, hfind⟩
  · rw [hfind, List.find?_eq_none]
    simp
  · intro r hr
    rw [hfind] at hr
    have hp := List.find?_some hr
    simpa using hp

/-- C4 witness: a missing year fails, a present year returns its row. -/
theorem c4_get_record_witness :
    getRecord dfSample 1980 = none ∧ rec1990.year = 1990 :=
  ⟨(c4_get_record dfSample 1980).1.mpr (by decide),
   (c4_get_record dfSample 1990).2.1 rec1990 rfl⟩

/-- C5: for every record at the head of the year slice, the metric grid is
exactly two rows of three cards: row one is Extreme_Drought, Severe_Drought,
Moderate_Drought and row two is Extremely_Wet, Moderately_Wet, Near_Normal,
each card carrying that category's value from the record. -/
theorem c5_metrics_grid_layout (year_data : List Record) (side : String) (row : Record)
    (h : year_data.head? = some row) :
    build_metrics year_data side = some
      [[{ icon := "☀️", label := "Extreme Drought", value := row.extreme_drought,
          background := "#8B0000", text_color := "white" },
        { icon := "🔥", label := "Severe Drought", value := row.severe_drought,
          background := "#FF4500", text_color := "white" },
        { icon := "🌤️", label := "Moderate Drought", value := row.moderate_drought,
          background := "#FFA500", text_color := "black" }],
       [{ icon := "💧", label := "Extremely Wet", value := row.extremely_wet,
          background := "#0000FF", text_color := "white" },
        { icon := "🌧️", label := "Moderately Wet", value := row.moderately_wet,
          background := "#4169E1", text_color := "black" },
        { icon := "🌿", label := "Near Normal", value := row.near_normal,
          background := "#90EE90", text_color := "black" }]] := by
  unfold build_metrics
  rw [h]
  rfl

/-- C5 witness: the metric grid of the sample 1990 record. -/
theorem c5_metrics_grid_layout_witness :
    build_metrics dfSample "Left" = some
      [[{ icon := "☀️", label := "Extreme Drought", value := rec1990.extreme_drought,
          background := "#8B0000", text_color := "white" },
        { icon := "🔥", label := "Severe Drought", value := rec1990.severe_drought,
          background := "#FF4500", text_color := "white" },
        { icon := "🌤️", label := "Moderate Drought", value := rec1990.moderate_drought,
          background := "#FFA500", text_color := "black" }],
       [{ icon := "💧", label := "Extremely Wet", value := rec1990.extremely_wet,
          background := "#0000FF", text_color := "white" },
        { icon := "🌧️", label := "Moderately Wet", value := rec1990.moderately_wet,
          background := "#4169E1", text_color := "black" },
        { icon := "🌿", label := "Near Normal", value := rec1990.near_normal,
          background := "#90EE90", text_color := "black" }]] :=
  c5_metrics_grid_layout dfSample "Left" rec1990 rfl

/-- C6: the six values placed in the 2x3 metric grid sum to the same total as
the six values of the pie-chart series: both read the same six category
fields exactly once each. -/
theorem c6_sums_agree (year_data : List Record) (year : Int) (side : String)
    (grid : List (List MetricCard)) (pie : PieChart)
    (hg : build_metrics year_data side = some grid)
    (hp : create_pie_chart year_data year = some pie) :
    (grid.map fun gridRow => (gridRow.map MetricCard.value).sum).sum = pie.values.sum := by
  cases hh : year_data.head? with
  | none =>
    rw [build_metrics, hh] at hg
    simp at hg
  | some row =>
    rw [build_metrics, hh] at hg
    rw [create_pie_chart, hh] at hp
    rw [Option.map_some'] at hg hp
    have hg2 := Option.some.inj hg
    have hp2 := Option.some.inj hp
    subst hg2
    subst hp2
    simp [categories_grid, pieCategories, create_metric_card, categoryValue]
    ring

/-- C6 witness: both totals agree on the sample table's 1990 slice. -/
theorem c6_sums_agree_witness :
    ∃ grid pie, build_metrics dfSample "Left" = some grid ∧
      create_pie_chart dfSample 1990 = some pie ∧
      (grid.map fun gridRow => (gridRow.map MetricCard.value).sum).sum = pie.values.sum :=
  ⟨_, _, rfl, rfl, c6_sums_agree dfSample 1990 "Left" _ _ rfl rfl⟩

/-- C7: a metric card's text color is white exactly when its category is
Extreme_Drought, Severe_Drought or Extremely_Wet, and black otherwise. -/
theorem c7_text_color_rule (category : Category) (value : Rat) (side : String) :
    ((create_metric_card category value side).text_color = "white" ↔
      category ∈ [Category.Extreme_Drought, Category.Severe_Drought, Category.Extremely_Wet]) ∧
    ((create_metric_card category value side).text_color = "black" ↔
      category ∉ [Category.Extreme_Drought, Category.Severe_Drought, Category.Extremely_Wet]) := by
  cases category <;> simp [create_metric_card]

/-- C7 witness: white on Extreme_Drought, black on Near_Normal. -/
theorem c7_text_color_rule_witness :
    (create_metric_card .Extreme_Drought 5 "Left").text_color = "white" ∧
    (create_metric_card .Near_Normal 5 "Left").text_color = "black" :=
  ⟨(c7_text_color_rule .Extreme_Drought 5 "Left").1.mpr (by decide),
   (c7_text_color_rule .Near_Normal 5 "Left").2.mpr (by decide)⟩

/-- C8: the exposed year list is deterministically the distinct years of the
loaded table in strictly ascending order; its head is a lower bound and its
last element an upper bound of every exposed year. -/
theorem c8_years_sorted (df : List Record) :
    (yearsOf df).Sorted (· < ·) ∧
    (∀ y, y ∈ yearsOf df ↔ y ∈ df.map Record.year) ∧
    (∀ hd, (yearsOf df).head? = some hd → ∀ y ∈ yearsOf df, hd ≤ y) ∧
    (∀ lst, (yearsOf df).getLast? = some lst → ∀ y ∈ yearsOf df, y ≤ lst) := by
  refine ⟨sorted_lt_yearsOf df, fun y => mem_yearsOf, ?_, ?_⟩
  · intro hd hhd
    exact sorted_head?_le (sorted_le_yearsOf df) hhd
  · intro lst hlst
    exact sorted_le_getLast? (sorted_le_yearsOf df) hlst

/-- C8 witness: on the sample table the year list is `[1990, 1991]`, with
1990 a lower and 1991 an upper bound. -/
theorem c8_years_sorted_witness :
    (∀ y ∈ yearsOf dfSample, (1990 : Int) ≤ y) ∧
    (∀ y ∈ yearsOf dfSample, y ≤ (1991 : Int)) :=
  ⟨(c8_years_sorted dfSample).2.2.1 1990 (by rw [yearsOf_dfSample]; rfl),
   (c8_years_sorted dfSample).2.2.2 1991 (by rw [yearsOf_dfSample]; rfl)⟩

/-- C9: the controller's absence check is Python truthiness: it signals
`PreventUpdate` exactly when either supplied year is falsy, and the year 0 is
falsy even though it is a supplied value. -/
theorem c9_truthiness_guard (fetch : String → Option (List Nat)) (df : List Record)
    (year_left year_right : Option Int) :
    (update_dashboard fetch df year_left year_right = .error .preventUpdate ↔
      (truthy year_left = false ∨ truthy year_right = false)) ∧
    truthy (some 0) = false := by
  refine ⟨⟨?_, ?_⟩, rfl⟩
  · intro h
    by_contra hc
    push_neg at hc
    obtain ⟨h1, h2⟩ := hc
    rw [Bool.ne_false_iff] at h1 h2
    cases year_left with
    | none => simp [truthy] at h1
    | some yl =>
      cases year_right with
      | none => simp [truthy] at h2
      | some yr =>
        rw [update_dashboard.eq_def] at h
        rw [h1, h2] at h
        simp only [Bool.not_true, Bool.or_self, Bool.false_eq_true, if_false] at h
        cases hbo : buildOutputs fetch (rowsForYear df yl) (rowsForYear df yr) yl yr with
        | some outs => rw [hbo] at h; simp at h
        | none => rw [hbo] at h; simp at h
  · intro h
    rw [update_dashboard.eq_def]
    have hcond : (!(truthy year_left) || !(truthy year_right)) = true := by
      rcases h with h | h <;> simp [h]
    rw [if_pos hcond]

/-- C9 witness: a supplied left year equal to 0 yields PreventUpdate. -/
theorem c9_truthiness_guard_witness :
    update_dashboard fetchFail dfSample (some 0) (some 1991) = .error .preventUpdate :=
  ((c9_truthiness_guard fetchFail dfSample (some 0) (some 1991)).1).mpr (Or.inl rfl)

/-- C2 counterexample: on a table whose loaded year set contains 0, both
inputs are present years of the loaded set, yet the controller signals
PreventUpdate instead of returning the six outputs. -/
theorem c2_counterexample :
    (0 : Int) ∈ yearsOf [zeroRecord] ∧
    update_dashboard fetchFail [zeroRecord] (some 0) (some 0) = .error .preventUpdate :=
  ⟨mem_yearsOf.mpr (by decide), rfl⟩

/-- C2 amended: if either year is absent the controller signals PreventUpdate
and produces no outputs; if both are present, nonzero (truthy) years of the
loaded set, the call returns the six outputs. -/
theorem c2_amended_compare (fetch : String → Option (List Nat)) (df : List Record)
    (year_left year_right : Option Int) :
    ((year_left = none ∨ year_right = none) →
      update_dashboard fetch df year_left year_right = .error .preventUpdate) ∧
    (∀ yl yr, year_left = some yl → year_right = some yr → yl ≠ 0 → yr ≠ 0 →
      yl ∈ yearsOf df → yr ∈ yearsOf df →
      ∃ outs, update_dashboard fetch df year_left year_right = .ok outs) := by
  constructor
  · intro habs
    rw [update_dashboard.eq_def]
    have hcond : (!(truthy year_left) || !(truthy year_right)) = true := by
      rcases habs with rfl | rfl <;> simp [truthy]
    rw [if_pos hcond]
  · rintro yl yr rfl rfl hyl hyr hml hmr
    obtain ⟨l, hl⟩ := rowsForYear_head?_isSome (mem_yearsOf.mp hml)
    obtain ⟨r, hr⟩ := rowsForYear_head?_isSome (mem_yearsOf.mp hmr)
    obtain ⟨outs, houts⟩ :=
      Option.isSome_iff_exists.mp (buildOutputs_isSome fetch yl yr hl hr)
    refine ⟨outs, ?_⟩
    rw [update_dashboard.eq_def]
    have hcond : (!(truthy (some yl)) || !(truthy (some yr))) = false := by
      simp [truthy, hyl, hyr]
    rw [hcond]
    simp only [Bool.false_eq_true, if_false]
    rw [houts]

/-- C2 witness: on the sample table, both nonzero present years yield the
six outputs. -/
theorem c2_amended_compare_witness :
    ∃ outs, update_dashboard fetchFail dfSample (some 1990) (some 1991) = .ok outs :=
  (c2_amended_compare fetchFail dfSample (some 1990) (some 1991)).2 1990 1991 rfl rfl
    (by decide) (by decide) (mem_yearsOf.mpr (by decide)) (mem_yearsOf.mpr (by decide))

/-- A string under the jpeg data-URI prefix is never the png fallback. -/
theorem jpeg_ne_fallback (rest : String) :
    "data:image/jpeg;base64," ++ rest ≠ fallbackPayload := by
  intro h
  have h2 := congrArg String.data h
  rw [String.data_append] at h2
  have h3 := congrArg (fun l => l[11]?) h2
  simp only at h3
  rw [List.getElem?_append_left (by decide)] at h3
  revert h3
  decide

/-- C10: a successful resolution is the fetched bytes under the fixed prefix
`data:image/jpeg;base64,` regardless of the bytes' actual format, the
fallback is one fixed string under the prefix `data:image/png;base64,`, and a
successful result never equals the fallback payload. -/
theorem c10_payload_shapes (fetch : String → Option (List Nat)) (url : String)
    (img_data : List Nat) (h : fetch url = some img_data) :
    (∃ rest, get_image_base64 fetch url = "data:image/jpeg;base64," ++ rest) ∧
    (∃ rest, fallbackPayload = "data:image/png;base64," ++ rest) ∧
    get_image_base64 fetch url ≠ fallbackPayload := by
  have hval : get_image_base64 fetch url = "data:image/jpeg;base64," ++ b64encode img_data := by
    simp [get_image_base64, h]
  refine ⟨⟨b64encode img_data, hval⟩, ?_, ?_⟩
  · refine ⟨"iVBORw0KGgoAAAANSUhEUgAAAAEAAAABCAYAAAAfFcSJAAAADUlEQVR42mNkYPhfDwAChwGA60e6kgAAAABJRU5ErkJggg==", ?_⟩
    decide
  · rw [hval]
    exact jpeg_ne_fallback _

/-- C10 witness: concrete bytes under a succeeding fetch. -/
theorem c10_payload_shapes_witness :
    get_image_base64 fetchMan "https://example.com/b.jpg" ≠ fallbackPayload :=
  (c10_payload_shapes fetchMan "https://example.com/b.jpg" [77, 97, 110] rfl).2.2
